import Mathlib

/-!
Verification of the stdio MCP protocol client in `src/agent.py` (`run_agent`,
lines 241-361).  The Python code is shallowly embedded: JSON values become the
`Json` type below, `json.loads` / `json.dumps` are modelled by `jsonLoads` /
`dumps`, Python's `in`, `dict.get`, truthiness, `str.strip`, slicing and
`str.splitlines` by `pyContains`, `pyGetD`/`pyGetOpt`, `pyTruthy`, `pyStrip`,
`pyTake` and `pySplitLines`, and the descriptive strings returned by
`run_agent` by the structured `Outcome` type whose constructors carry exactly
the data interpolated into the corresponding f-string of the source.
Python exceptions that escape to the generic `except Exception` handler
(line 360) are modelled by `Except.error` results carrying the exception
class name.

Modelling notes for the external `json` library:
* numbers are modelled as integers (no claim involves non-integer numerals);
* `jsonLoads` implements the grammar of newline-free JSON texts with the
  whitespace set of the Python `json` module (space, tab, CR, LF);
* duplicate object keys keep the position of the first occurrence and the
  value of the last one, as a Python `dict` does.
-/

namespace Agent

-- A JSON value as produced by `json.loads`.  Arrays and objects use the
-- mutually defined list types `JsonList` and `JsonObj` so that all
-- recursions below are structural.
mutual

inductive Json where
  | null
  | bool (b : Bool)
  | num (n : Int)
  | str (s : String)
  | arr (xs : JsonList)
  | obj (kvs : JsonObj)
deriving DecidableEq, Repr

inductive JsonList where
  | nil
  | cons (v : Json) (rest : JsonList)
deriving DecidableEq, Repr

inductive JsonObj where
  | nil
  | cons (k : String) (v : Json) (rest : JsonObj)
deriving DecidableEq, Repr

end

deriving instance DecidableEq for Except

/-- Convert an ordinary Lean list of values into a `JsonList` (used to write
concrete JSON literals). -/
def JsonList.ofList : List Json → JsonList
  | [] => .nil
  | v :: vs => .cons v (JsonList.ofList vs)

/-- Convert an ordinary Lean association list into a `JsonObj` (used to write
concrete JSON literals). -/
def JsonObj.ofList : List (String × Json) → JsonObj
  | [] => .nil
  | (k, v) :: kvs => .cons k v (JsonObj.ofList kvs)

/-- Key lookup in a JSON object (first occurrence; the parser never produces
duplicate keys). -/
def JsonObj.lookup : JsonObj → String → Option Json
  | .nil, _ => none
  | .cons k2 v rest, k => if k2 = k then some v else JsonObj.lookup rest k

/-- Python `dict` insertion: an existing key keeps its position and gets the
new value, a new key is appended. -/
def JsonObj.insert : JsonObj → String → Json → JsonObj
  | .nil, k, v => .cons k v .nil
  | .cons k2 v2 rest, k, v =>
    if k2 = k then .cons k2 v rest else .cons k2 v2 (JsonObj.insert rest k v)

/-- Membership of a value in a JSON array (Python `x in list`). -/
def JsonList.hasElem : JsonList → Json → Bool
  | .nil, _ => false
  | .cons v rest, x => if v = x then true else JsonList.hasElem rest x

/-- The whitespace characters of both Python `str.strip()` (restricted to
ASCII, which is all that occurs here) and the `json` module. -/
def isWsChar (c : Char) : Bool := c = ' ' || c = '\t' || c = '\n' || c = '\r'

/-- Python `s.strip()`. -/
def pyStrip (s : String) : String :=
  ⟨((s.data.dropWhile isWsChar).reverse.dropWhile isWsChar).reverse⟩

/-- Python slicing `s[:n]` (by code points). -/
def pyTake (n : Nat) (s : String) : String := ⟨s.data.take n⟩

/-- `pat` occurs at the start of `hay`. -/
def listStartsWith : List Char → List Char → Bool
  | _, [] => true
  | [], _ :: _ => false
  | c :: cs, d :: ds => c = d && listStartsWith cs ds

/-- `pat` occurs somewhere in `hay`. -/
def listHasSub : List Char → List Char → Bool
  | [], pat => pat.isEmpty
  | c :: cs, pat => listStartsWith (c :: cs) pat || listHasSub cs pat

/-- Python substring test `pat in hay` on strings. -/
def strHasSub (hay pat : String) : Bool := listHasSub hay.data pat.data

/-- Python `str.splitlines()` restricted to the newline separator (the only
line boundary produced by the text-mode pipes of the session).  The source
applies it to an already stripped string, so the trailing-empty-piece
difference between Python `splitlines` and this function never matters. -/
def splitNlAux : List Char → List Char → List String
  | [], acc => [⟨acc.reverse⟩]
  | '\n' :: rest, acc => (⟨acc.reverse⟩ : String) :: splitNlAux rest []
  | c :: rest, acc => splitNlAux rest (c :: acc)

/-- Split a string into its lines at newline characters. -/
def pySplitLines (s : String) : List String := splitNlAux s.data []

/-- Python truthiness of a JSON value (`if not x`). -/
def pyTruthy : Json → Bool
  | .null => false
  | .bool b => b
  | .num n => if n = 0 then false else true
  | .str s => if s = "" then false else true
  | .arr .nil => false
  | .arr (.cons _ _) => true
  | .obj .nil => false
  | .obj (.cons _ _ _) => true

/-- Python `key in x` for a JSON value `x`: key membership for a dict,
element membership for a list, substring test for a string; on `None`,
booleans and numbers Python raises `TypeError`. -/
def pyContains (v : Json) (key : String) : Except String Bool :=
  match v with
  | .obj kvs => .ok (kvs.lookup key).isSome
  | .arr xs => .ok (xs.hasElem (.str key))
  | .str s => .ok (strHasSub s key)
  | _ => .error "TypeError"

/-- Python `x.get(key, dflt)`: only dicts have `.get`; any other value raises
`AttributeError`.  A stored value is returned even when it is `None`. -/
def pyGetD (v : Json) (key : String) (dflt : Json) : Except String Json :=
  match v with
  | .obj kvs => .ok ((kvs.lookup key).getD dflt)
  | _ => .error "AttributeError"

/-- Python `x.get(key)` (default `None`), the result kept as an `Option` so
that `is None` tests can be expressed. -/
def pyGetOpt (v : Json) (key : String) : Except String (Option Json) :=
  match v with
  | .obj kvs => .ok (kvs.lookup key)
  | _ => .error "AttributeError"

/-! ### `json.dumps` (default separators, `ensure_ascii=True`) -/

/-- The sixteen lowercase hexadecimal digit characters. -/
def hexDigits : List Char := "0123456789abcdef".data

/-- The hexadecimal digit of `n % 16`. -/
def hexDigit (n : Nat) : Char := hexDigits.getD (n % 16) '0'

/-- Four-digit lowercase hexadecimal rendering of `n < 0x10000`. -/
def hex4 (n : Nat) : String :=
  ⟨[hexDigit (n / 4096), hexDigit (n / 256), hexDigit (n / 16), hexDigit n]⟩

/-- The decimal digits of `n` (most significant first; `[]` for zero), with
structural fuel so that the kernel can evaluate it. -/
def natDigsAux : Nat → Nat → List Char
  | 0, _ => []
  | fuel + 1, n =>
    if n = 0 then [] else natDigsAux fuel (n / 10) ++ [hexDigit (n % 10)]

/-- The decimal digits of a positive number (most significant first). -/
def natDigs (n : Nat) : List Char := natDigsAux n n

/-- Decimal rendering of an integer, as Python prints it. -/
def intStr (n : Int) : String :=
  if n < 0 then "-" ++ (⟨natDigs n.natAbs⟩ : String)
  else if n = 0 then "0"
  else ⟨natDigs n.natAbs⟩

/-- `json.dumps` escaping of one character of a string. -/
def escChar (c : Char) : String :=
  if c = '"' then "\\\""
  else if c = '\\' then "\\\\"
  else if c = '\n' then "\\n"
  else if c = '\r' then "\\r"
  else if c = '\t' then "\\t"
  else if c.toNat = 8 then "\\b"
  else if c.toNat = 12 then "\\f"
  else if c.toNat < 32 then "\\u" ++ hex4 c.toNat
  else if c.toNat < 127 then String.singleton c
  else if c.toNat < 65536 then "\\u" ++ hex4 c.toNat
  else
    "\\u" ++ hex4 (55296 + (c.toNat - 65536) / 1024) ++
      "\\u" ++ hex4 (56320 + (c.toNat - 65536) % 1024)

/-- `json.dumps` escaping of a character sequence. -/
def strEsc : List Char → String
  | [] => ""
  | c :: cs => escChar c ++ strEsc cs

/-- `json.dumps` rendering of a string. -/
def dumpString (s : String) : String := "\"" ++ strEsc s.data ++ "\""

mutual

/-- `json.dumps` with its default separators `", "` and `": "`. -/
def dumps : Json → String
  | .null => "null"
  | .bool true => "true"
  | .bool false => "false"
  | .num n => intStr n
  | .str s => dumpString s
  | .arr xs => "[" ++ dumpsList xs ++ "]"
  | .obj kvs => "\x7b" ++ dumpsObj kvs ++ "\x7d"

/-- `", "`-separated rendering of array elements. -/
def dumpsList : JsonList → String
  | .nil => ""
  | .cons x .nil => dumps x
  | .cons x (.cons y xs) => dumps x ++ ", " ++ dumpsList (.cons y xs)

/-- `", "`-separated rendering of object members. -/
def dumpsObj : JsonObj → String
  | .nil => ""
  | .cons k v .nil => dumpString k ++ ": " ++ dumps v
  | .cons k v (.cons k2 v2 kvs) =>
    dumpString k ++ ": " ++ dumps v ++ ", " ++ dumpsObj (.cons k2 v2 kvs)

end

/-! ### `json.loads` -/

/-- Skip JSON whitespace. -/
def skipWs (cs : List Char) : List Char := cs.dropWhile isWsChar

/-- Value of one hexadecimal digit. -/
def hexVal (c : Char) : Option Nat :=
  if '0' ≤ c ∧ c ≤ '9' then some (c.toNat - 48)
  else if 'a' ≤ c ∧ c ≤ 'f' then some (c.toNat - 87)
  else if 'A' ≤ c ∧ c ≤ 'F' then some (c.toNat - 55)
  else none

/-- Parse the body of a JSON string literal after the opening quote. -/
def parseStr : List Char → List Char → Except String (String × List Char)
  | _, [] => .error "Unterminated string"
  | acc, '"' :: rest => .ok (⟨acc.reverse⟩, rest)
  | acc, '\\' :: '"' :: rest => parseStr ('"' :: acc) rest
  | acc, '\\' :: '\\' :: rest => parseStr ('\\' :: acc) rest
  | acc, '\\' :: '/' :: rest => parseStr ('/' :: acc) rest
  | acc, '\\' :: 'b' :: rest => parseStr ('\x08' :: acc) rest
  | acc, '\\' :: 'f' :: rest => parseStr ('\x0c' :: acc) rest
  | acc, '\\' :: 'n' :: rest => parseStr ('\n' :: acc) rest
  | acc, '\\' :: 'r' :: rest => parseStr ('\r' :: acc) rest
  | acc, '\\' :: 't' :: rest => parseStr ('\t' :: acc) rest
  | acc, '\\' :: 'u' :: h1 :: h2 :: h3 :: h4 :: rest =>
    match hexVal h1, hexVal h2, hexVal h3, hexVal h4 with
    | some a, some b, some c, some d =>
      parseStr (Char.ofNat (((a * 16 + b) * 16 + c) * 16 + d) :: acc) rest
    | _, _, _, _ => .error "Invalid unicode escape"
  | _, '\\' :: _ => .error "Invalid escape"
  | acc, c :: rest => parseStr (c :: acc) rest

/-- Decimal value of a digit sequence. -/
def digitsToNat (ds : List Char) : Nat :=
  ds.foldl (fun acc c => acc * 10 + (c.toNat - 48)) 0

mutual

/-- Parse one JSON value, fuel-bounded (the fuel chosen in `jsonLoads` is
always sufficient because every two consecutive fuelled calls consume at
least one input character). -/
def parseValue : Nat → List Char → Except String (Json × List Char)
  | 0, _ => .error "Input too deeply nested"
  | fuel + 1, cs =>
    match skipWs cs with
    | [] => .error "Expecting value"
    | 'n' :: 'u' :: 'l' :: 'l' :: rest => .ok (.null, rest)
    | 't' :: 'r' :: 'u' :: 'e' :: rest => .ok (.bool true, rest)
    | 'f' :: 'a' :: 'l' :: 's' :: 'e' :: rest => .ok (.bool false, rest)
    | '"' :: rest =>
      (match parseStr [] rest with
       | .ok (s, rest2) => .ok (.str s, rest2)
       | .error e => .error e)
    | '[' :: rest => parseElems fuel rest
    | '\x7b' :: rest => parseMembers fuel rest
    | '-' :: rest =>
      (match rest.span Char.isDigit with
       | ([], _) => .error "Expecting value"
       | (ds, rest2) => .ok (.num (-(Int.ofNat (digitsToNat ds))), rest2))
    | c :: rest =>
      if c.isDigit then
        match (c :: rest).span Char.isDigit with
        | (ds, rest2) => .ok (.num (Int.ofNat (digitsToNat ds)), rest2)
      else .error "Expecting value"

/-- Parse the elements of an array after the opening bracket. -/
def parseElems : Nat → List Char → Except String (Json × List Char)
  | 0, _ => .error "Input too deeply nested"
  | fuel + 1, cs =>
    match skipWs cs with
    | ']' :: rest => .ok (.arr .nil, rest)
    | _ =>
      match parseValue fuel cs with
      | .error e => .error e
      | .ok (v, rest) =>
        match parseElemsTail fuel rest with
        | .error e => .error e
        | .ok (vs, rest2) => .ok (.arr (.cons v vs), rest2)

/-- Parse `, value`* `]` after one array element. -/
def parseElemsTail : Nat → List Char → Except String (JsonList × List Char)
  | 0, _ => .error "Input too deeply nested"
  | fuel + 1, cs =>
    match skipWs cs with
    | ']' :: rest => .ok (.nil, rest)
    | ',' :: rest =>
      (match parseValue fuel rest with
       | .error e => .error e
       | .ok (v, rest2) =>
         match parseElemsTail fuel rest2 with
         | .error e => .error e
         | .ok (vs, rest3) => .ok (.cons v vs, rest3))
    | _ => .error "Expecting comma or close bracket"

/-- Parse the members of an object after the opening brace. -/
def parseMembers : Nat → List Char → Except String (Json × List Char)
  | 0, _ => .error "Input too deeply nested"
  | fuel + 1, cs =>
    match skipWs cs with
    | '\x7d' :: rest => .ok (.obj .nil, rest)
    | _ =>
      match parseMembersLoop fuel .nil cs with
      | .error e => .error e
      | .ok (kvs, rest) => .ok (.obj kvs, rest)

/-- Parse `"key": value` members separated by commas, accumulating with
Python `dict` insertion semantics. -/
def parseMembersLoop : Nat → JsonObj → List Char → Except String (JsonObj × List Char)
  | 0, _, _ => .error "Input too deeply nested"
  | fuel + 1, acc, cs =>
    match skipWs cs with
    | '"' :: rest =>
      (match parseStr [] rest with
       | .error e => .error e
       | .ok (k, rest2) =>
         match skipWs rest2 with
         | ':' :: rest3 =>
           (match parseValue fuel rest3 with
            | .error e => .error e
            | .ok (v, rest4) =>
              match skipWs rest4 with
              | ',' :: rest5 => parseMembersLoop fuel (acc.insert k v) rest5
              | '\x7d' :: rest5 => .ok (acc.insert k v, rest5)
              | _ => .error "Expecting comma or close brace")
         | _ => .error "Expecting colon")
    | _ => .error "Expecting property name"

end

/-- `json.loads`: parse one JSON value and require only whitespace after it. -/
def jsonLoads (s : String) : Except String Json :=
  match parseValue (2 * s.length + 8) s.data with
  | .error e => .error e
  | .ok (v, rest) => if skipWs rest = [] then .ok v else .error "Extra data"

/-! ### The structured outcome of `run_agent`

`run_agent` reports every result as a descriptive string.  Each constructor
below stands for one `return` statement of the source and carries exactly the
data interpolated into that statement's f-string. -/

/-- The outcome of one session, one constructor per `return` of `run_agent`.
Line numbers refer to `src/agent.py`. -/
inductive Outcome where
  /-- line 292: non-zero exit of the child process. -/
  | processExit (returncode : Int) (message : String)
  /-- line 297: successful exit but stdout empty after stripping. -/
  | emptyResponse (stderrInfo : String)
  /-- lines 325-326: no JSON line found; carries the first decode error seen
  in scan order (if any) and the excerpt of the stripped stdout. -/
  | noParsable (firstErr : Option String) (rawExcerpt : String)
  /-- line 333: MCP-level error object; carries the `message` field (default
  `"Unknown MCP error"`) and the serialized error object truncated to 500. -/
  | toolError (message : Json) (details : String)
  /-- line 341: neither `tool_result` nor a user-shaped object. -/
  | unexpectedShape (excerpt : String)
  /-- line 345: `tool_result` present but its `result` missing or null. -/
  | missingResult (excerpt : String)
  /-- line 350: the greeting built from the payload. -/
  | success (login name : Json)
  /-- line 354: `subprocess.TimeoutExpired` handler. -/
  | timedOut (stderrInfo : String)
  /-- lines 360-361: the generic `except Exception` handler, carrying the
  exception class name (`TypeError`, `AttributeError`, ...). -/
  | pyExc (e : String)
deriving DecidableEq, Repr

/-- Keep an already-recorded first decode error, else record `alt` (models
`if last_json_decode_error is None: last_json_decode_error = e`). -/
def ferrOr (ferr : Option String) (alt : Option String) : Option String :=
  match ferr with
  | some e => some e
  | none => alt

/-- Keep an already-recorded fallback candidate, else record `v` (models
`if parsed_response is None: parsed_response = current_json`). -/
def keepOr (acc : Option Json) (v : Json) : Option Json :=
  match acc with
  | some w => some w
  | none => some v

/-- Lines 307-320: the response disambiguator.  The Python loop iterates over
`reversed(candidate_lines)`, so this function is applied to the REVERSED line
list; `parsed` and `ferr` model the `parsed_response` and
`last_json_decode_error` accumulators (both initially `None`).  A `.error`
result models a Python exception escaping the loop (the `in` operator on a
parsed number, boolean or null raises `TypeError`, which
`except json.JSONDecodeError` does not catch). -/
def findResponse : List String → Option Json → Option String →
    Except String (Option Json × Option String)
  | [], parsed, ferr => .ok (parsed, ferr)
  | line :: rest, parsed, ferr =>
    if pyStrip line = "" then findResponse rest parsed ferr
    else
      match jsonLoads line with
      | .error e => findResponse rest parsed (ferrOr ferr (some e))
      | .ok v =>
        match pyContains v "tool_result" with
        | .error te => .error te
        | .ok true => .ok (some v, ferr)
        | .ok false =>
          match pyContains v "error" with
          | .error te => .error te
          | .ok true => .ok (some v, ferr)
          | .ok false => findResponse rest (keepOr parsed v) ferr

/-- Lines 347-350: read `login` and `name` from the payload, each defaulting
to the string `"N/A"`; `.get` on a non-dict payload raises
`AttributeError`. -/
def finishPayload (actual_result : Json) : Except String Outcome := do
  let login ← pyGetD actual_result "login" (.str "N/A")
  let name ← pyGetD actual_result "name" (.str "N/A")
  .ok (.success login name)

/-- Lines 338-341: the tolerated alternate shape — when `tool_result` is
absent (or falsy), a response carrying both `login` and `id` keys is itself
the payload, anything else is the unexpected-shape failure. -/
def extractAlt (response_data : Json) : Except String Outcome := do
  let hasLogin ← pyContains response_data "login"
  let hasId ← pyContains response_data "id"
  if hasLogin && hasId then finishPayload response_data
  else .ok (.unexpectedShape (pyTake 500 (dumps response_data)))

/-- Lines 331-350: the result extractor applied to the winning JSON value.
Note two Python subtleties kept by this translation: the `error` branch uses
default `"Unknown MCP error"`, and the `tool_result` test is
`if not tool_result_wrapper:` — a FALSY value (such as `{}`) is treated like
an absent one. -/
def extractResult (response_data : Json) : Except String Outcome := do
  let hasErr ← pyContains response_data "error"
  if hasErr then
    let error_details ← pyGetD response_data "error" (.obj .nil)
    let msg ← pyGetD error_details "message" (.str "Unknown MCP error")
    .ok (.toolError msg (pyTake 500 (dumps error_details)))
  else do
    let tool_result_wrapper ← pyGetOpt response_data "tool_result"
    match tool_result_wrapper with
    | some trv =>
      if pyTruthy trv then do
        let actual ← pyGetOpt trv "result"
        match actual with
        | none => .ok (.missingResult (pyTake 500 (dumps trv)))
        | some .null => .ok (.missingResult (pyTake 500 (dumps trv)))
        | some av => finishPayload av
      else extractAlt response_data
    | none => extractAlt response_data

/-- Lines 286-350: everything `run_agent` does after `communicate` returned
`(stdout_data, stderr_data)` with exit code `returncode`:
* lines 286-292 — non-zero exit: the message prefers stripped stderr, falls
  back to stripped stdout, then to a fixed string, truncated to 1000;
* lines 294-297 — stripped stdout empty: the empty-response report;
* lines 299-350 — otherwise scan the stripped stdout's lines backwards with
  `findResponse` and extract from the winner with `extractResult`; a Python
  exception from either lands in the generic handler (`Outcome.pyExc`). -/
def processCompleted (returncode : Int) (stdout_data stderr_data : String) : Outcome :=
  if returncode ≠ 0 then
    .processExit returncode (pyTake 1000
      (if pyStrip stderr_data ≠ "" then pyStrip stderr_data
       else if pyStrip stdout_data ≠ "" then pyStrip stdout_data
       else "Unknown error from MCP server process."))
  else if pyStrip stdout_data = "" then
    .emptyResponse (pyTake 1000
      (if pyStrip stderr_data ≠ "" then pyStrip stderr_data
       else "No error message on stderr."))
  else
    match findResponse (pySplitLines (pyStrip stdout_data)).reverse none none with
    | .error te => .pyExc te
    | .ok (none, ferr) => .noParsable ferr (pyTake 500 (pyStrip stdout_data))
    | .ok (some winner, _) =>
      match extractResult winner with
      | .error te => .pyExc te
      | .ok o => o

/-! ### The process session -/

/-- What the one call to `process.communicate(input=request_json, timeout=60)`
does, as observed by `run_agent`: either it raises `TimeoutExpired`, or it
returns the child's exit code and captured streams. -/
structure CommBehavior where
  timesOut : Bool
  exitCode : Int
  stdoutData : String
  stderrData : String

/-- Lifecycle of the spawned child process at the moment `run_agent`
returns. -/
inductive ChildState where
  /-- the child has been neither terminated nor waited on. -/
  | leftRunning
  /-- `communicate` waited for the child, so it has been reaped. -/
  | reaped
deriving DecidableEq, Repr

/-- Lines 272-361: the session around `communicate`.  On the timeout path the
handler (lines 352-354) builds its message from `stderr_data`, which is still
the `""` set at line 270 because `communicate` raised before assigning, hence
the fixed `"N/A"`; the handler contains no `kill()`/`terminate()`/`wait()`
call, so the child is left running.  On the normal path `communicate` itself
waits for the child, which is therefore reaped. -/
def sessionRun (b : CommBehavior) : Outcome × ChildState :=
  if b.timesOut then
    (.timedOut "N/A", .leftRunning)
  else
    (processCompleted b.exitCode b.stdoutData b.stderrData, .reaped)

/-! ### The launch command and the request line -/

/-- Lines 251-255: the argument vector handed to `subprocess.Popen`.  Note
that the f-string places the token itself into the sixth element. -/
def mcp_command (token : String) : List String :=
  ["docker", "run", "-i", "--rm",
   "-e", "GITHUB_PERSONAL_ACCESS_TOKEN=" ++ token,
   "ghcr.io/github/github-mcp-server"]

/-- The request payload of lines 259-265, generalized over the two leaves
(`run_agent` itself always uses `"get_me"` and `{}`). -/
def encodeRequestPayload (tool_name : String) (arguments : JsonObj) : Json :=
  .obj (.cons "mcp_version" (.str "0.1.0")
    (.cons "tool_invocation"
      (.obj (.cons "tool_name" (.str tool_name)
        (.cons "arguments" (.obj arguments) .nil))) .nil))

/-- Line 267 generalized: `json.dumps(request_payload) + "\n"`. -/
def encodeRequest (tool_name : String) (arguments : JsonObj) : String :=
  dumps (encodeRequestPayload tool_name arguments) ++ "\n"

/-- Lines 259-265: the concrete payload built by `run_agent`. -/
def request_payload : Json := encodeRequestPayload "get_me" .nil

/-- Line 267: the wire line `run_agent` builds. -/
def request_json : String := dumps request_payload ++ "\n"

/-- Line 284: the string passed as `input=` to `communicate`, i.e. written to
the child's standard input. -/
def sessionStdin : String := request_json

/-! ### Spec-side definitions (following the claims' words, to be compared
with the code-side functions above) -/

/-- Spec wording: the line "parses as a JSON object containing a key named
`tool_result` or a key named `error`". -/
def taggedObjLine (l : String) : Bool :=
  match jsonLoads l with
  | .ok (.obj kvs) => (kvs.lookup "tool_result").isSome || (kvs.lookup "error").isSome
  | _ => false

/-- The line parses as some JSON value. -/
def parsesJson (l : String) : Bool :=
  match jsonLoads l with
  | .ok _ => true
  | .error _ => false

/-- The line either fails to parse or parses as a JSON object (the domain on
which the claim's description of the scan is accurate). -/
def loadsObjOk (l : String) : Bool :=
  match jsonLoads l with
  | .ok (.obj _) => true
  | .ok _ => false
  | .error _ => true

/-- Spec wording of the scan over the lines in scan order (last line first),
generalized by the fallback accumulator: the winner is the first tagged line
in scan order; failing that, a previously recorded fallback; failing that,
the first line in scan order that parsed as JSON (i.e. the line closest to
the end of stdout that parsed). -/
def scanResult (revLines : List String) (acc : Option Json) : Option Json :=
  match revLines.find? taggedObjLine with
  | some l => (jsonLoads l).toOption
  | none =>
    match acc with
    | some v => some v
    | none =>
      match revLines.find? parsesJson with
      | some l => (jsonLoads l).toOption
      | none => none

/-- Spec wording of the winner of the backward scan (no fallback recorded
yet). -/
def specWinner (revLines : List String) : Option Json := scanResult revLines none

/-- Spec wording: "the first parse error encountered (in scan order)" —
applied to the lines in scan order, skipping blank lines. -/
def firstScanError : List String → Option String
  | [] => none
  | l :: rest =>
    if pyStrip l = "" then firstScanError rest
    else
      match jsonLoads l with
      | .error e => some e
      | .ok _ => firstScanError rest

/-! ## Theorems -/

/-- `bind` on an `Except.ok` value steps to the continuation. -/
theorem ebind_ok {α β : Type} (a : α) (f : α → Except String β) :
    (Except.ok a >>= f : Except String β) = f a := rfl

/-- C6: when the child exits non-zero the outcome is the process-exit error,
whose message prefers the stripped stderr text, falls back to the stripped
stdout text when stderr is blank, and is truncated to 1000 characters; in
particular exit code 1 with stderr `"boom"` carries `"boom"`, and exit code 1
with empty stderr but stdout `"oops"` carries `"oops"`. -/
theorem C6_process_exit (rc : Int) (stdout_data stderr_data : String) (h : rc ≠ 0) :
    processCompleted rc stdout_data stderr_data
      = .processExit rc (pyTake 1000
          (if pyStrip stderr_data ≠ "" then pyStrip stderr_data
           else if pyStrip stdout_data ≠ "" then pyStrip stdout_data
           else "Unknown error from MCP server process."))
    ∧ processCompleted 1 "" "boom" = .processExit 1 "boom"
    ∧ processCompleted 1 "oops" "" = .processExit 1 "oops" := by
  refine ⟨?_, by decide, by decide⟩
  unfold processCompleted
  rw [if_pos h]

/-- Witness for `C6_process_exit` at exit code 2. -/
theorem C6_process_exit_witness :
    (2 : Int) ≠ 0
    ∧ (processCompleted 2 "out" "err"
        = .processExit 2 (pyTake 1000
            (if pyStrip "err" ≠ "" then pyStrip "err"
             else if pyStrip "out" ≠ "" then pyStrip "out"
             else "Unknown error from MCP server process."))
       ∧ processCompleted 1 "" "boom" = .processExit 1 "boom"
       ∧ processCompleted 1 "oops" "" = .processExit 1 "oops") :=
  ⟨by decide, C6_process_exit 2 "out" "err" (by decide)⟩

/-- C7: when the child exits with code 0 and the captured stdout strips to
the empty string, the outcome is the empty-response error referencing the
stderr content, before any JSON scanning takes place (the scan is never
reached on this branch); in particular whitespace-only stdout yields it. -/
theorem C7_empty_response (stdout_data stderr_data : String)
    (h : pyStrip stdout_data = "") :
    processCompleted 0 stdout_data stderr_data
      = .emptyResponse (pyTake 1000
          (if pyStrip stderr_data ≠ "" then pyStrip stderr_data
           else "No error message on stderr."))
    ∧ processCompleted 0 " \n\t " "warning: XYZ" = .emptyResponse "warning: XYZ" := by
  refine ⟨?_, by decide⟩
  unfold processCompleted
  rw [if_neg (by simp), if_pos h]

/-- Witness for `C7_empty_response` at whitespace-only stdout. -/
theorem C7_empty_response_witness :
    pyStrip "  " = ""
    ∧ (processCompleted 0 "  " "e"
        = .emptyResponse (pyTake 1000
            (if pyStrip "e" ≠ "" then pyStrip "e"
             else "No error message on stderr."))
       ∧ processCompleted 0 " \n\t " "warning: XYZ" = .emptyResponse "warning: XYZ") :=
  ⟨by decide, C7_empty_response "  " "e" (by decide)⟩

/-- String concatenation concatenates the character data. -/
theorem data_append (a b : String) : (a ++ b).data = a.data ++ b.data := rfl

/-- Concatenation of newline-free strings is newline-free. -/
theorem noNL_append {a b : String} (ha : '\n' ∉ a.data) (hb : '\n' ∉ b.data) :
    '\n' ∉ (a ++ b).data := by
  rw [data_append]
  intro h
  rcases List.mem_append.mp h with h2 | h2
  · exact ha h2
  · exact hb h2

/-- Hexadecimal digit characters are never a newline. -/
theorem hexDigit_ne_nl (n : Nat) : hexDigit n ≠ '\n' := by
  have h16 : n % 16 < 16 := Nat.mod_lt _ (by omega)
  have hall : ∀ m, m < 16 → hexDigits.getD m '0' ≠ '\n' := by decide
  exact hall (n % 16) h16

/-- `hex4` renderings are newline-free. -/
theorem hex4_noNL (n : Nat) : '\n' ∉ (hex4 n).data := by
  intro h
  have h2 : '\n' = hexDigit (n / 4096) ∨ '\n' = hexDigit (n / 256)
      ∨ '\n' = hexDigit (n / 16) ∨ '\n' = hexDigit n := by
    simpa [hex4] using h
  rcases h2 with h2 | h2 | h2 | h2 <;> exact hexDigit_ne_nl _ h2.symm

/-- Decimal digit lists are newline-free. -/
theorem natDigsAux_noNL (fuel n : Nat) : '\n' ∉ natDigsAux fuel n := by
  induction fuel generalizing n with
  | zero => simp [natDigsAux]
  | succ f ih =>
    simp only [natDigsAux]
    split
    · simp
    · intro h
      rcases List.mem_append.mp h with h2 | h2
      · exact ih _ h2
      · have h3 : '\n' = hexDigit (n % 10) := by simpa using h2
        exact hexDigit_ne_nl _ h3.symm

/-- Integer renderings are newline-free. -/
theorem intStr_noNL (n : Int) : '\n' ∉ (intStr n).data := by
  unfold intStr
  split
  · exact noNL_append (by decide) (natDigsAux_noNL _ _)
  · split
    · decide
    · exact natDigsAux_noNL _ _

/-- The JSON escape of any single character is newline-free. -/
theorem escChar_noNL (c : Char) : '\n' ∉ (escChar c).data := by
  unfold escChar
  by_cases h1 : c = '"'
  · rw [if_pos h1]; decide
  rw [if_neg h1]
  by_cases h2 : c = '\\'
  · rw [if_pos h2]; decide
  rw [if_neg h2]
  by_cases h3 : c = '\n'
  · rw [if_pos h3]; decide
  rw [if_neg h3]
  by_cases h4 : c = '\r'
  · rw [if_pos h4]; decide
  rw [if_neg h4]
  by_cases h5 : c = '\t'
  · rw [if_pos h5]; decide
  rw [if_neg h5]
  by_cases h6 : c.toNat = 8
  · rw [if_pos h6]; decide
  rw [if_neg h6]
  by_cases h7 : c.toNat = 12
  · rw [if_pos h7]; decide
  rw [if_neg h7]
  by_cases h8 : c.toNat < 32
  · rw [if_pos h8]; exact noNL_append (by decide) (hex4_noNL _)
  rw [if_neg h8]
  by_cases h9 : c.toNat < 127
  · rw [if_pos h9]
    intro hmem
    have h : '\n' = c := by simpa [String.singleton] using hmem
    exact h3 h.symm
  rw [if_neg h9]
  by_cases h10 : c.toNat < 65536
  · rw [if_pos h10]; exact noNL_append (by decide) (hex4_noNL _)
  rw [if_neg h10]
  exact noNL_append
    (noNL_append (noNL_append (by decide) (hex4_noNL _)) (by decide)) (hex4_noNL _)

/-- Escaped character sequences are newline-free. -/
theorem strEsc_noNL (cs : List Char) : '\n' ∉ (strEsc cs).data := by
  induction cs with
  | nil => decide
  | cons c cs ih =>
    simp only [strEsc]
    exact noNL_append (escChar_noNL c) ih

/-- `json.dumps` string renderings are newline-free. -/
theorem dumpString_noNL (s : String) : '\n' ∉ (dumpString s).data := by
  unfold dumpString
  exact noNL_append (noNL_append (by decide) (strEsc_noNL _)) (by decide)

mutual

/-- The serialization of any JSON value is newline-free (every newline inside
a string value is escaped to backslash-n). -/
theorem dumps_noNL : (v : Json) → '\n' ∉ (dumps v).data
  | .null => by decide
  | .bool true => by decide
  | .bool false => by decide
  | .num n => by
    simp only [dumps]
    exact intStr_noNL n
  | .str s => by
    simp only [dumps]
    exact dumpString_noNL s
  | .arr xs => by
    simp only [dumps]
    exact noNL_append (noNL_append (by decide) (dumpsList_noNL xs)) (by decide)
  | .obj kvs => by
    simp only [dumps]
    exact noNL_append (noNL_append (by decide) (dumpsObj_noNL kvs)) (by decide)

/-- The serialization of array elements is newline-free. -/
theorem dumpsList_noNL : (xs : JsonList) → '\n' ∉ (dumpsList xs).data
  | .nil => by decide
  | .cons x .nil => by
    simp only [dumpsList]
    exact dumps_noNL x
  | .cons x (.cons y xs) => by
    simp only [dumpsList]
    exact noNL_append (noNL_append (dumps_noNL x) (by decide))
      (dumpsList_noNL (.cons y xs))

/-- The serialization of object members is newline-free. -/
theorem dumpsObj_noNL : (kvs : JsonObj) → '\n' ∉ (dumpsObj kvs).data
  | .nil => by decide
  | .cons k v .nil => by
    simp only [dumpsObj]
    exact noNL_append (noNL_append (dumpString_noNL k) (by decide)) (dumps_noNL v)
  | .cons k v (.cons k2 v2 kvs) => by
    simp only [dumpsObj]
    exact noNL_append
      (noNL_append (noNL_append (noNL_append (dumpString_noNL k) (by decide))
        (dumps_noNL v)) (by decide))
      (dumpsObj_noNL (.cons k2 v2 kvs))

end

/-- A string whose characters are all whitespace has empty `skipWs`. -/
theorem dropWhile_all_ws {d : List Char}
    (h : ∀ x ∈ d.dropWhile isWsChar, isWsChar x = true) :
    d.dropWhile isWsChar = [] := by
  induction d with
  | nil => rfl
  | cons c cs ih =>
    by_cases hc : isWsChar c = true
    · simp only [List.dropWhile_cons, if_pos hc] at h ⊢
      exact ih h
    · simp only [List.dropWhile_cons, if_neg hc] at h
      exact absurd (h c (by simp)) hc

/-- A line that strips to the empty string is all whitespace. -/
theorem pyStrip_empty_skipWs {s : String} (h : pyStrip s = "") :
    skipWs s.data = [] := by
  unfold pyStrip at h
  have h1 : ((s.data.dropWhile isWsChar).reverse.dropWhile isWsChar).reverse = [] := by
    simpa using congrArg String.data h
  have h2 : (s.data.dropWhile isWsChar).reverse.dropWhile isWsChar = [] := by
    simpa using congrArg List.reverse h1
  have h4 : ∀ x ∈ s.data.dropWhile isWsChar, isWsChar x = true := by
    intro x hx
    exact List.dropWhile_eq_nil_iff.mp h2 x (List.mem_reverse.mpr hx)
  exact dropWhile_all_ws h4

/-- `json.loads` fails on a whitespace-only line. -/
theorem jsonLoads_blank {l : String} (h : pyStrip l = "") :
    jsonLoads l = .error "Expecting value" := by
  have hsk : skipWs l.data = [] := pyStrip_empty_skipWs h
  unfold jsonLoads
  obtain ⟨f, hf⟩ : ∃ f, 2 * l.length + 8 = f + 1 := ⟨2 * l.length + 7, by omega⟩
  rw [hf]
  simp [parseValue, hsk]

/-- The scan loop of lines 307-320 computes exactly the spec-side
`scanResult`, provided every line that parses at all parses as a JSON
object; the accompanying decode-error accumulator is existentially
quantified here (it is characterized separately for the all-fail case). -/
theorem findResponse_eq_scanResult :
    ∀ (ls : List String), (∀ l ∈ ls, loadsObjOk l = true) →
    ∀ (acc : Option Json) (ferr : Option String),
    ∃ e, findResponse ls acc ferr = .ok (scanResult ls acc, e) := by
  intro ls
  induction ls with
  | nil =>
    intro _ acc ferr
    refine ⟨ferr, ?_⟩
    cases acc <;> simp [findResponse, scanResult, List.find?]
  | cons l rest ih =>
    intro H acc ferr
    have Hl : loadsObjOk l = true := H l (by simp)
    have Hrest : ∀ x ∈ rest, loadsObjOk x = true := fun x hx => H x (by simp [hx])
    by_cases hb : pyStrip l = ""
    · have hload := jsonLoads_blank hb
      have ht : taggedObjLine l = false := by simp [taggedObjLine, hload]
      have hp : parsesJson l = false := by simp [parsesJson, hload]
      obtain ⟨e, he⟩ := ih Hrest acc ferr
      refine ⟨e, ?_⟩
      rw [show findResponse (l :: rest) acc ferr = findResponse rest acc ferr from by
        simp [findResponse, hb]]
      rw [he]
      have hscan : scanResult (l :: rest) acc = scanResult rest acc := by
        simp [scanResult, List.find?, ht, hp]
      rw [hscan]
    · cases hload : jsonLoads l with
      | error e0 =>
        have ht : taggedObjLine l = false := by simp [taggedObjLine, hload]
        have hp : parsesJson l = false := by simp [parsesJson, hload]
        obtain ⟨e, he⟩ := ih Hrest acc (ferrOr ferr (some e0))
        refine ⟨e, ?_⟩
        rw [show findResponse (l :: rest) acc ferr
            = findResponse rest acc (ferrOr ferr (some e0)) from by
          simp [findResponse, hb, hload]]
        rw [he]
        have hscan : scanResult (l :: rest) acc = scanResult rest acc := by
          simp [scanResult, List.find?, ht, hp]
        rw [hscan]
      | ok v =>
        have hobj : ∃ kvs, v = Json.obj kvs := by
          have h2 := Hl
          unfold loadsObjOk at h2
          rw [hload] at h2
          cases v with
          | obj kvs => exact ⟨kvs, rfl⟩
          | null => simp at h2
          | bool b => simp at h2
          | num n => simp at h2
          | str s => simp at h2
          | arr xs => simp at h2
        obtain ⟨kvs, rfl⟩ := hobj
        cases htag : ((kvs.lookup "tool_result").isSome || (kvs.lookup "error").isSome) with
        | true =>
          have httrue : taggedObjLine l = true := by
            simp [taggedObjLine, hload]
            simpa using htag
          refine ⟨ferr, ?_⟩
          have hstep : findResponse (l :: rest) acc ferr = .ok (some (.obj kvs), ferr) := by
            cases htr : (kvs.lookup "tool_result").isSome with
            | true => simp [findResponse, hb, hload, pyContains, htr]
            | false =>
              have herr : (kvs.lookup "error").isSome = true := by
                rw [htr] at htag
                simpa using htag
              simp [findResponse, hb, hload, pyContains, htr, herr]
          have hscan : scanResult (l :: rest) acc = some (.obj kvs) := by
            simp [scanResult, List.find?, httrue, hload, Except.toOption]
          rw [hstep, hscan]
        | false =>
          have htr : (kvs.lookup "tool_result").isSome = false := by
            cases h2 : (kvs.lookup "tool_result").isSome with
            | false => rfl
            | true => rw [h2] at htag; simp at htag
          have herr : (kvs.lookup "error").isSome = false := by
            rw [htr] at htag
            simpa using htag
          have htf : taggedObjLine l = false := by
            simp [taggedObjLine, hload, htr, herr]
          have hpt : parsesJson l = true := by simp [parsesJson, hload]
          obtain ⟨e, he⟩ := ih Hrest (keepOr acc (Json.obj kvs)) ferr
          refine ⟨e, ?_⟩
          have hstep : findResponse (l :: rest) acc ferr
              = findResponse rest (keepOr acc (Json.obj kvs)) ferr := by
            cases acc <;> simp [findResponse, keepOr, hb, hload, pyContains, htr, herr]
          rw [hstep, he]
          have hscan : scanResult (l :: rest) acc
              = scanResult rest (keepOr acc (Json.obj kvs)) := by
            unfold scanResult
            rw [show (l :: rest).find? taggedObjLine = rest.find? taggedObjLine from by
              simp [List.find?, htf]]
            cases hfind : rest.find? taggedObjLine with
            | some l2 => rfl
            | none =>
              cases acc with
              | some w => rfl
              | none => simp [keepOr, List.find?, hpt, hload, Except.toOption]
          rw [hscan]

/-- When no line parses as JSON the scan loop finds no winner and reports the
first parse error in scan order. -/
theorem findResponse_all_fail :
    ∀ (ls : List String), (∀ l ∈ ls, parsesJson l = false) →
    ∀ ferr, findResponse ls none ferr
      = .ok (none, ferrOr ferr (firstScanError ls)) := by
  intro ls
  induction ls with
  | nil =>
    intro _ ferr
    cases ferr <;> simp [findResponse, firstScanError, ferrOr]
  | cons l rest ih =>
    intro H ferr
    have Hl : parsesJson l = false := H l (by simp)
    have Hrest : ∀ x ∈ rest, parsesJson x = false := fun x hx => H x (by simp [hx])
    by_cases hb : pyStrip l = ""
    · rw [show findResponse (l :: rest) none ferr = findResponse rest none ferr from by
        simp [findResponse, hb]]
      rw [ih Hrest ferr]
      rw [show firstScanError (l :: rest) = firstScanError rest from by
        simp [firstScanError, hb]]
    · have hload : ∃ e0, jsonLoads l = .error e0 := by
        unfold parsesJson at Hl
        cases hl2 : jsonLoads l with
        | ok v => rw [hl2] at Hl; simp at Hl
        | error e0 => exact ⟨e0, rfl⟩
      obtain ⟨e0, hload⟩ := hload
      rw [show findResponse (l :: rest) none ferr
          = findResponse rest none (ferrOr ferr (some e0)) from by
        simp [findResponse, hb, hload]]
      rw [ih Hrest _]
      cases ferr with
      | some f => rfl
      | none => simp [firstScanError, ferrOr, hb, hload]

/-- C1 counterexample: with stdout holding an object line tagged `error`
followed by the array line `["error"]`, the backward scan selects the ARRAY
(Python's `in` finds the string `"error"` among its elements and breaks),
not the first line in backward-scan order that parses as a JSON OBJECT
containing a tagged key, which is the object line. -/
theorem C1_counterexample :
    findResponse (pySplitLines (pyStrip "\x7b\"error\": null\x7d\n[\"error\"]")).reverse none none
      = .ok (some (.arr (.cons (.str "error") .nil)), none)
    ∧ jsonLoads "\x7b\"error\": null\x7d" = .ok (.obj (.cons "error" .null .nil))
    ∧ Json.arr (.cons (.str "error") .nil) ≠ Json.obj (.cons "error" .null .nil) := by decide

/-- C1 amended: restricted to stdout texts all of whose parsable lines parse
as JSON objects (on other values Python's `in` means element membership,
substring, or a `TypeError`), the disambiguator splits the stripped stdout
into lines, discards blank lines, scans from the last line to the first, and
selects the first line in that backward scan that parses as an object with a
`tool_result` or `error` key, stopping there even when a line closer to the
end is valid but untagged JSON; with no tagged line anywhere the winner is
the line closest to the end that parsed as JSON (the first fallback recorded
by the backward scan) — exactly the spec-side `specWinner`. -/
theorem C1_backward_scan (stdout : String)
    (H : (pySplitLines (pyStrip stdout)).all loadsObjOk = true) :
    (findResponse (pySplitLines (pyStrip stdout)).reverse none none).map Prod.fst
      = .ok (specWinner (pySplitLines (pyStrip stdout)).reverse) := by
  have H2 : ∀ l ∈ (pySplitLines (pyStrip stdout)).reverse, loadsObjOk l = true := by
    intro l hl
    exact List.all_eq_true.mp H l (List.mem_reverse.mp hl)
  obtain ⟨e, he⟩ := findResponse_eq_scanResult _ H2 none none
  rw [he]
  rfl

/-- Witness for `C1_backward_scan`: a tagged object line followed by a later
untagged object line — the tagged line wins. -/
theorem C1_backward_scan_witness :
    (pySplitLines (pyStrip "\x7b\"tool_result\": null\x7d\n\x7b\"x\": 1\x7d")).all loadsObjOk = true
    ∧ (findResponse
        (pySplitLines (pyStrip "\x7b\"tool_result\": null\x7d\n\x7b\"x\": 1\x7d")).reverse
        none none).map Prod.fst
      = .ok (specWinner
          (pySplitLines (pyStrip "\x7b\"tool_result\": null\x7d\n\x7b\"x\": 1\x7d")).reverse) :=
  ⟨by decide, C1_backward_scan "\x7b\"tool_result\": null\x7d\n\x7b\"x\": 1\x7d" (by decide)⟩

/-- C8 counterexample: for stdout `" This is not valid JSON output"` the
excerpt carried by the no-parsable-response outcome is the stripped stdout
(line 323 applies `.strip()` before slicing), which differs from the first
500 characters of the RAW stdout claimed. -/
theorem C8_counterexample :
    processCompleted 0 " This is not valid JSON output" ""
      = .noParsable (some "Expecting value") "This is not valid JSON output"
    ∧ pyTake 500 " This is not valid JSON output" ≠ "This is not valid JSON output" := by decide

/-- C8 amended: for every stdout that is non-blank after stripping and none
of whose lines parses as JSON, the outcome is the no-parsable-response error
carrying the first 500 characters of the STRIPPED stdout together with the
first parse error encountered in scan order (last line to first); parse
failures on individual lines do not abort the scan. -/
theorem C8_no_parsable (stdout_data stderr_data : String)
    (h1 : pyStrip stdout_data ≠ "")
    (H : (pySplitLines (pyStrip stdout_data)).all (fun l => !parsesJson l) = true) :
    processCompleted 0 stdout_data stderr_data
      = .noParsable (firstScanError (pySplitLines (pyStrip stdout_data)).reverse)
          (pyTake 500 (pyStrip stdout_data)) := by
  have H2 : ∀ l ∈ (pySplitLines (pyStrip stdout_data)).reverse, parsesJson l = false := by
    intro l hl
    have h3 := List.all_eq_true.mp H l (List.mem_reverse.mp hl)
    simpa using h3
  unfold processCompleted
  rw [if_neg (by simp), if_neg h1]
  rw [findResponse_all_fail _ H2 none]
  rfl

/-- Witness for `C8_no_parsable` on two unparsable lines. -/
theorem C8_no_parsable_witness :
    pyStrip "noise here\nalso noise" ≠ ""
    ∧ (pySplitLines (pyStrip "noise here\nalso noise")).all (fun l => !parsesJson l) = true
    ∧ processCompleted 0 "noise here\nalso noise" "s"
      = .noParsable (firstScanError (pySplitLines (pyStrip "noise here\nalso noise")).reverse)
          (pyTake 500 (pyStrip "noise here\nalso noise")) :=
  ⟨by decide, by decide, C8_no_parsable "noise here\nalso noise" "s" (by decide) (by decide)⟩

/-- A list not containing a character reports `contains = false`. -/
theorem contains_false_of_not_mem {l : List Char} {c : Char} (h : c ∉ l) :
    l.contains c = false := by
  simp [List.contains, List.elem_eq_mem, h]

/-- C9: for every tool name and arguments mapping, the encoded wire line is
the serialization of the JSON object carrying `mcp_version = "0.1.0"` and
the `tool_invocation` object with the supplied `tool_name` and `arguments`,
followed by exactly one newline character (the serialized body itself
contains no newline), and the line `run_agent` passes to the child's
standard input is exactly this encoding at `("get_me", \x7b\x7d)`. -/
theorem C9_request_encoding (tool_name : String) (arguments : JsonObj) :
    encodeRequest tool_name arguments
      = dumps (encodeRequestPayload tool_name arguments) ++ "\n"
    ∧ (encodeRequest tool_name arguments).data
      = (dumps (encodeRequestPayload tool_name arguments)).data ++ ['\n']
    ∧ (dumps (encodeRequestPayload tool_name arguments)).data.contains '\n' = false
    ∧ pyGetOpt (encodeRequestPayload tool_name arguments) "mcp_version"
      = .ok (some (.str "0.1.0"))
    ∧ pyGetOpt (encodeRequestPayload tool_name arguments) "tool_invocation"
      = .ok (some (.obj (.cons "tool_name" (.str tool_name)
          (.cons "arguments" (.obj arguments) .nil))))
    ∧ sessionStdin = encodeRequest "get_me" .nil :=
  ⟨rfl, rfl, contains_false_of_not_mem (dumps_noNL _), rfl, rfl, rfl⟩

/-- C5 counterexample: for the winning object `\x7b"error": \x7b\x7d\x7d` the
message defaults to the literal `"Unknown MCP error"` (line 333), not to the
claimed `"Unknown error"`. -/
theorem C5_counterexample :
    extractResult (.obj (.cons "error" (.obj .nil) .nil))
      = .ok (.toolError (.str "Unknown MCP error")
          (pyTake 500 (dumps (.obj (.nil : JsonObj)))))
    ∧ ("Unknown MCP error" : String) ≠ "Unknown error" := by decide

/-- C5 amended: for a winning object whose `error` key holds an error object,
the outcome is the tool error whose message is the error object's `message`
field, defaulting to the literal `"Unknown MCP error"` when absent, and whose
details are the serialized error object truncated to 500 characters; in
particular an `error` object `\x7bmessage: "bad creds", code: 401\x7d` on the
last stdout line wins even when an earlier line holds unrelated valid
JSON. -/
theorem C5_tool_error (kvs ekvs : JsonObj)
    (h : kvs.lookup "error" = some (.obj ekvs)) :
    extractResult (.obj kvs)
      = .ok (.toolError ((ekvs.lookup "message").getD (.str "Unknown MCP error"))
          (pyTake 500 (dumps (.obj ekvs))))
    ∧ processCompleted 0
        "\x7b\"id\": 7\x7d\n\x7b\"error\": \x7b\"message\": \"bad creds\", \"code\": 401\x7d\x7d" ""
      = .toolError (.str "bad creds") "\x7b\"message\": \"bad creds\", \"code\": 401\x7d" := by
  refine ⟨?_, by decide⟩
  simp [extractResult, pyContains, pyGetD, h, ebind_ok]

/-- Witness for `C5_tool_error` on an error object without a message. -/
theorem C5_tool_error_witness :
    (JsonObj.cons "error" (.obj (.cons "code" (.num 7) .nil)) .nil).lookup "error"
      = some (.obj (.cons "code" (.num 7) .nil))
    ∧ extractResult (.obj (.cons "error" (.obj (.cons "code" (.num 7) .nil)) .nil))
      = .ok (.toolError (((JsonObj.cons "code" (.num 7) .nil).lookup "message").getD
            (.str "Unknown MCP error"))
          (pyTake 500 (dumps (.obj (.cons "code" (.num 7) .nil))))) :=
  ⟨by decide,
   (C5_tool_error (.cons "error" (.obj (.cons "code" (.num 7) .nil)) .nil)
      (.cons "code" (.num 7) .nil) (by decide)).1⟩

/-- C4 counterexample: the winning object `\x7b"tool_result": \x7b\x7d\x7d`
has a `tool_result` key whose `result` is missing, so the claim requires the
missing-result outcome; but the code tests `if not tool_result_wrapper:`
(line 337), treats the falsy `\x7b\x7d` as absent, and produces the
unexpected-shape outcome instead. -/
theorem C4_counterexample :
    extractResult (.obj (.cons "tool_result" (.obj .nil) .nil))
      = .ok (.unexpectedShape
          (pyTake 500 (dumps (.obj (.cons "tool_result" (.obj .nil) .nil)))))
    ∧ (match extractResult (.obj (.cons "tool_result" (.obj .nil) .nil)) with
       | .ok (.missingResult _) => true
       | _ => false) = false := by decide

/-- C4 amended: for a winning object without an `error` key, when the
`tool_result` key holds a TRUTHY object the payload is that object's
`result` field and a missing or null `result` yields the missing-result
outcome; when `tool_result` is absent OR ITS VALUE IS FALSY, the whole object
is the payload exactly when it has both `login` and `id` keys, and every
remaining case is the unexpected-shape outcome. -/
theorem C4_tool_result_shape (kvs tkvs : JsonObj)
    (hne : kvs.lookup "error" = none) :
    (kvs.lookup "tool_result" = some (.obj tkvs) → tkvs ≠ .nil →
       tkvs.lookup "result" = none →
       extractResult (.obj kvs) = .ok (.missingResult (pyTake 500 (dumps (.obj tkvs)))))
    ∧ (kvs.lookup "tool_result" = some (.obj tkvs) → tkvs ≠ .nil →
       tkvs.lookup "result" = some .null →
       extractResult (.obj kvs) = .ok (.missingResult (pyTake 500 (dumps (.obj tkvs)))))
    ∧ ((∀ trv, kvs.lookup "tool_result" = some trv → pyTruthy trv = false) →
       (((kvs.lookup "login").isSome = true → (kvs.lookup "id").isSome = true →
          extractResult (.obj kvs)
            = .ok (.success ((kvs.lookup "login").getD (.str "N/A"))
                ((kvs.lookup "name").getD (.str "N/A"))))
        ∧ (((kvs.lookup "login").isSome && (kvs.lookup "id").isSome) = false →
          extractResult (.obj kvs)
            = .ok (.unexpectedShape (pyTake 500 (dumps (.obj kvs))))))) := by
  have truthyOf : ∀ t : JsonObj, t ≠ .nil → pyTruthy (.obj t) = true := by
    intro t ht
    cases t with
    | nil => exact absurd rfl ht
    | cons k v r => rfl
  refine ⟨?_, ?_, ?_⟩
  · intro htr hnn hres
    simp [extractResult, pyContains, pyGetOpt, hne, htr, hres, ebind_ok, truthyOf tkvs hnn]
  · intro htr hnn hres
    simp [extractResult, pyContains, pyGetOpt, hne, htr, hres, ebind_ok, truthyOf tkvs hnn]
  · intro hfal
    constructor
    · intro hl hid
      cases htr : kvs.lookup "tool_result" with
      | none =>
        simp [extractResult, extractAlt, finishPayload, pyContains, pyGetOpt, pyGetD,
          hne, htr, hl, hid, ebind_ok]
      | some trv =>
        simp [extractResult, extractAlt, finishPayload, pyContains, pyGetOpt, pyGetD,
          hne, htr, hl, hid, ebind_ok, hfal trv htr]
    · intro hno
      have hker : (kvs.lookup "login").isSome = true → kvs.lookup "id" = none := by
        intro hl
        cases hcid : kvs.lookup "id" with
        | none => rfl
        | some x =>
          rw [hl, hcid] at hno
          simp at hno
      cases htr : kvs.lookup "tool_result" with
      | none =>
        simp [extractResult, extractAlt, finishPayload, pyContains, pyGetOpt, pyGetD,
          hne, htr, hno, ebind_ok]
        exact hker
      | some trv =>
        simp [extractResult, extractAlt, finishPayload, pyContains, pyGetOpt, pyGetD,
          hne, htr, hno, ebind_ok, hfal trv htr]
        exact hker

/-- Witness for `C4_tool_result_shape`: a present-but-empty-object
`tool_result` value next to `login`/`id` keys takes the alternate-shape
branch. -/
theorem C4_tool_result_shape_witness :
    (JsonObj.cons "tool_result" (.obj .nil)
        (.cons "login" (.str "u") (.cons "id" (.num 3) .nil))).lookup "error" = none
    ∧ extractResult (.obj (.cons "tool_result" (.obj .nil)
        (.cons "login" (.str "u") (.cons "id" (.num 3) .nil))))
      = .ok (.success
          (((JsonObj.cons "tool_result" (.obj .nil)
             (.cons "login" (.str "u") (.cons "id" (.num 3) .nil))).lookup "login").getD
            (.str "N/A"))
          (((JsonObj.cons "tool_result" (.obj .nil)
             (.cons "login" (.str "u") (.cons "id" (.num 3) .nil))).lookup "name").getD
            (.str "N/A"))) :=
  ⟨by decide,
   ((C4_tool_result_shape
      (.cons "tool_result" (.obj .nil)
        (.cons "login" (.str "u") (.cons "id" (.num 3) .nil))) .nil
      (by decide)).2.2
      (by intro trv h; cases h; rfl)).1 (by decide) (by decide)⟩

/-- C10: on the success path with an object payload, the outcome carries the
payload's `login` and `name`, each defaulting to the literal `"N/A"` when
absent; in particular the single-line alice stdout yields her login and name,
and a payload with only `login` gets name `"N/A"`. -/
theorem C10_success_payload (kvs tkvs pkvs : JsonObj)
    (hne : kvs.lookup "error" = none)
    (htr : kvs.lookup "tool_result" = some (.obj tkvs))
    (hnn : tkvs ≠ .nil)
    (hres : tkvs.lookup "result" = some (.obj pkvs)) :
    extractResult (.obj kvs)
      = .ok (.success ((pkvs.lookup "login").getD (.str "N/A"))
          ((pkvs.lookup "name").getD (.str "N/A")))
    ∧ processCompleted 0
        "\x7b\"tool_result\": \x7b\"result\": \x7b\"login\": \"alice\", \"name\": \"Alice A\", \"id\": 1\x7d\x7d\x7d" ""
      = .success (.str "alice") (.str "Alice A")
    ∧ extractResult (.obj (.cons "tool_result"
        (.obj (.cons "result" (.obj (.cons "login" (.str "bob") .nil)) .nil)) .nil))
      = .ok (.success (.str "bob") (.str "N/A")) := by
  refine ⟨?_, by decide, by decide⟩
  have htrue : pyTruthy (.obj tkvs) = true := by
    cases tkvs with
    | nil => exact absurd rfl hnn
    | cons k v r => rfl
  simp [extractResult, finishPayload, pyContains, pyGetOpt, pyGetD,
    hne, htr, hres, htrue, ebind_ok]

/-- Witness for `C10_success_payload` at the bob payload. -/
theorem C10_success_payload_witness :
    (JsonObj.cons "tool_result"
        (.obj (.cons "result" (.obj (.cons "login" (.str "bob") .nil)) .nil)) .nil).lookup
        "error" = none
    ∧ extractResult (.obj (.cons "tool_result"
        (.obj (.cons "result" (.obj (.cons "login" (.str "bob") .nil)) .nil)) .nil))
      = .ok (.success (((JsonObj.cons "login" (.str "bob") .nil).lookup "login").getD
            (.str "N/A"))
          (((JsonObj.cons "login" (.str "bob") .nil).lookup "name").getD (.str "N/A"))) :=
  ⟨by decide,
   (C10_success_payload
      (.cons "tool_result"
        (.obj (.cons "result" (.obj (.cons "login" (.str "bob") .nil)) .nil)) .nil)
      (.cons "result" (.obj (.cons "login" (.str "bob") .nil)) .nil)
      (.cons "login" (.str "bob") .nil)
      (by decide) (by decide) (by decide) (by decide)).1⟩

/-- C2 counterexample: on the timeout path the session returns the timed-out
outcome but the child process has been neither terminated nor reaped — the
`except subprocess.TimeoutExpired` handler (lines 352-354) contains no
`kill()`, `terminate()` or `wait()` call, so the claim's "the session
terminates the child process" and "on every exit path the child process is
reaped" are false. -/
theorem C2_counterexample :
    sessionRun ⟨true, 0, "", ""⟩ = (.timedOut "N/A", .leftRunning)
    ∧ ChildState.leftRunning ≠ ChildState.reaped := by decide

/-- C2 amended: on timeout the session returns a timed-out outcome whose
stderr report is the fixed `"N/A"` (nothing was captured, because
`communicate` raised before assigning), and the child is left neither
terminated nor reaped; the child is reaped exactly on the paths where
`communicate` returns. -/
theorem C2_timeout_behavior (b : CommBehavior) :
    (b.timesOut = true → sessionRun b = (.timedOut "N/A", .leftRunning))
    ∧ (b.timesOut = false → (sessionRun b).2 = .reaped) := by
  constructor <;> intro h <;> simp [sessionRun, h]

/-- Witness for `C2_timeout_behavior` on both kinds of behaviors. -/
theorem C2_timeout_behavior_witness :
    sessionRun ⟨true, 1, "a", "b"⟩ = (.timedOut "N/A", .leftRunning)
    ∧ (sessionRun ⟨false, 0, "", ""⟩).2 = .reaped :=
  ⟨(C2_timeout_behavior ⟨true, 1, "a", "b"⟩).1 rfl,
   (C2_timeout_behavior ⟨false, 0, "", ""⟩).2 rfl⟩

/-- C3 counterexample: two sessions with different credentials build
DIFFERENT command lines, and the command line contains the credential value
inside its environment-assignment argument — the f-string at line 253 embeds
the token into the `-e` argument of the `docker` client invocation. -/
theorem C3_counterexample :
    mcp_command "tokenA" ≠ mcp_command "tokenB"
    ∧ (mcp_command "secret123").any (fun a => strHasSub a "secret123") = true := by decide

/-- C3 amended: the credential appears in exactly one place on the command
line — element 5, the argument `GITHUB_PERSONAL_ACCESS_TOKEN=<token>` given
to docker's `-e` flag — and every other element is independent of the
credential (two sessions with different credentials build command lines that
agree everywhere except at that element). -/
theorem C3_command_line (t1 t2 : String) :
    (mcp_command t1).length = (mcp_command t2).length
    ∧ (∀ i : Nat, i ≠ 5 → (mcp_command t1).get? i = (mcp_command t2).get? i)
    ∧ (mcp_command t1).get? 5 = some ("GITHUB_PERSONAL_ACCESS_TOKEN=" ++ t1) := by
  refine ⟨rfl, ?_, rfl⟩
  intro i hi
  match i with
  | 0 => rfl
  | 1 => rfl
  | 2 => rfl
  | 3 => rfl
  | 4 => rfl
  | 5 => exact absurd rfl hi
  | n + 6 => rfl

/-- Witness for `C3_command_line` at two concrete tokens and index 0. -/
theorem C3_command_line_witness :
    (0 : Nat) ≠ 5
    ∧ (mcp_command "tokenA").get? 0 = (mcp_command "tokenB").get? 0
    ∧ (mcp_command "tokenA").get? 5 = some ("GITHUB_PERSONAL_ACCESS_TOKEN=" ++ "tokenA") :=
  ⟨by decide, (C3_command_line "tokenA" "tokenB").2.1 0 (by decide),
   (C3_command_line "tokenA" "tokenB").2.2⟩

end Agent

